import Mathlib

/-!
Verification of the ril-py raster-image bindings against their specification.

The repository is a Python binding over the `ril` image engine: the binding
wrappers (`src/image.rs`, `src/sequence.rs`, `src/text.rs`, `src/draw.rs`,
`src/error.rs`, `src/pixels.rs`, `src/types.rs`) are embedded directly from
their source; operations of the wrapped engine whose source is not part of
this repository (the `ril` crate and the `workaround` module) are modelled
from the specification, and each such definition carries a doc comment
starting with `Modelled from the spec:`.

Machine integers (`u8`, `u32`, `usize`) are embedded as `Nat`; none of the
operations proved about here overflow their range. Rust `panic!`/`assert!`
terminations are represented by an explicit `Outcome.panicked` constructor,
distinct from the typed errors (`Outcome.err`) that the bindings report.
-/

namespace RilPy

/-- The dynamic pixel value (`ril::Dynamic`), a tagged union over the four
pixel formats used throughout `src/pixels.rs` (spec section 3). Channels are
`u8`, embedded as `Nat`. -/
inductive Dynamic where
  | bitPixel (value : Bool)
  | l (value : Nat)
  | rgb (r g b : Nat)
  | rgba (r g b a : Nat)
  deriving DecidableEq, Repr

/-- Overlay (blending) mode, from `src/types.rs` (`OverlayMode`). -/
inductive OverlayMode where
  | replace
  | merge
  deriving DecidableEq, Repr

/-- Frame disposal method, from `src/types.rs` (`DisposalMethod`). -/
inductive DisposalMethod where
  | keep
  | background
  | previous
  deriving DecidableEq, Repr

/-- The binding's error enum, from `src/error.rs` (`enum Error`). The
`ril`-delegated kinds are collapsed to their variant names; the source's
misspelling `PoisionError` is kept. -/
inductive RilErrorKind where
  | invalidHexCode
  | invalidExtension
  | unsupportedColorType
  | encodingError
  | decodingError
  | unknownEncodingFormat
  | fontError
  | incompatibleImageData
  | ioError
  | emptyImageError
  deriving DecidableEq, Repr

/-- `Error` from `src/error.rs`: delegated `ril` errors, a format mismatch
carrying (expected, got), and the dedicated lock-poisoned variant. -/
inductive Error where
  | ril (kind : RilErrorKind)
  | unexpectedFormat (expected got : String)
  | poisionError
  deriving DecidableEq, Repr

/-- Outcome of calling a binding method: a normal return, a typed error
reported to the caller, or a Rust panic (`assert!`/index failure) which is
not a reported error. -/
inductive Outcome (α : Type) where
  | ok (a : α)
  | err (e : Error)
  | panicked
  deriving DecidableEq, Repr

/-- `true` exactly when the outcome is a typed, reported error. -/
def Outcome.isError {α : Type} : Outcome α → Bool
  | .err _ => true
  | _ => false

/-- Modelled from the spec: the wrapped `ril::Image` buffer, whose source is
not part of this repository. Spec section 3: a width by height row-major
sequence of dynamic pixels plus overlay metadata, with an explicitly
representable empty state. -/
structure RilImage where
  width : Nat
  height : Nat
  pixels : List Dynamic
  overlay : OverlayMode
  deriving DecidableEq, Repr

/-- Modelled from the spec: `ril::Image::new` (not in src/). Spec section
4.2: every pixel set to `fill`; a zero dimension yields the spec section 3
empty-image sentinel. The binding `Image::new` in `src/image.rs` wraps this
directly and returns `Self`, not a `Result`. -/
def RilImage.new (width height : Nat) (fill : Dynamic) : RilImage :=
  { width := width
    height := height
    pixels := List.replicate (width * height) fill
    overlay := OverlayMode.replace }

/-- Modelled from the spec: `ril::Image::is_empty`, called by the binding's
`__bool__` (`src/image.rs`). -/
def RilImage.isEmpty (img : RilImage) : Bool :=
  img.pixels.isEmpty

/-- Modelled from the spec: the row-major flat index of coordinate (x, y)
(spec section 3: `pixels` is a row-major sequence). -/
def RilImage.index (img : RilImage) (x y : Nat) : Nat :=
  y * img.width + x

/-- Modelled from the spec: `ril::Image::pixel(x, y)` (not in src/), the
direct indexed access of spec section 4.2, with Rust's checked indexing: a
flat index outside the buffer panics; it never returns garbage. -/
def RilImage.pixel (img : RilImage) (x y : Nat) : Outcome Dynamic :=
  match img.pixels.get? (img.index x y) with
  | some p => .ok p
  | none => .panicked

/-- Modelled from the spec: `ril::Image::set_pixel(x, y, pixel)` (not in
src/), checked indexed write into the row-major buffer. -/
def RilImage.setPixelInner (img : RilImage) (x y : Nat) (p : Dynamic) :
    Outcome RilImage :=
  if img.index x y < img.pixels.length then
    .ok { img with pixels := img.pixels.set (img.index x y) p }
  else
    .panicked

/-- The binding `Image::get_pixel` from `src/image.rs`: returns the pixel
cast to a Python object; its signature has no error channel, so the only
failure is the wrapped access's panic. -/
def Image.getPixel (img : RilImage) (x y : Nat) : Outcome Dynamic :=
  img.pixel x y

/-- The binding `Image::set_pixel` from `src/image.rs`: delegates to the
wrapped write; its signature has no error channel. -/
def Image.setPixel (img : RilImage) (x y : Nat) (p : Dynamic) :
    Outcome RilImage :=
  img.setPixelInner x y p

/-- The binding `Image::new` from `src/image.rs`: wraps `ril::Image::new`
and returns `Self` — the constructor is infallible by its type. -/
def Image.new (width height : Nat) (fill : Dynamic) : RilImage :=
  RilImage.new width height fill

/-- The mode string of one pixel, as matched in `Image::mode`
(`src/image.rs`). -/
def Dynamic.modeStr : Dynamic → String
  | .bitPixel _ => "bitpixel"
  | .l _ => "L"
  | .rgb _ _ _ => "RGB"
  | .rgba _ _ _ _ => "RGBA"

/-- The binding `Image::mode` from `src/image.rs`: matches on
`self.inner.pixel(0, 0)` — flat index 0, i.e. the head of the pixel
buffer — and panics on an empty image since the access is out of bounds. -/
def Image.mode (img : RilImage) : Outcome String :=
  match img.pixels.head? with
  | some p => .ok p.modeStr
  | none => .panicked

/-! ## Pixel conversions and bands -/

/-- Modelled from the spec: conversion of a dynamic pixel to the RGB
variant's channels (`convert::<ril::Rgb>` of the `ril` crate, not in src/).
Spec section 4.1: Luminance replicates across channels, BitPixel maps to
the extremes, removing alpha discards it. -/
def Dynamic.toRgbChannels : Dynamic → Nat × Nat × Nat
  | .bitPixel b => if b then (255, 255, 255) else (0, 0, 0)
  | .l v => (v, v, v)
  | .rgb r g b => (r, g, b)
  | .rgba r g b _ => (r, g, b)

/-- Modelled from the spec: conversion of a dynamic pixel to the RGBA
variant's channels; adding alpha defaults to fully opaque (spec section
4.1). -/
def Dynamic.toRgbaChannels (p : Dynamic) : Nat × Nat × Nat × Nat :=
  match p with
  | .rgba r g b a => (r, g, b, a)
  | other =>
    match other.toRgbChannels with
    | (r, g, b) => (r, g, b, 255)

/-- Modelled from the spec: conversion of a dynamic pixel to the
single-channel luminance value (`convert::<ril::L>`, not in src/). Spec
section 4.1: RGB uses a weighted luminance formula, BitPixel maps to the
extremes. -/
def Dynamic.toL : Dynamic → Nat
  | .bitPixel b => if b then 255 else 0
  | .l v => v
  | .rgb r g b => (r * 299 + g * 587 + b * 114) / 1000
  | .rgba r g b _ => (r * 299 + g * 587 + b * 114) / 1000

/-- Modelled from the spec: one channel band of an RGB(A) image as a
standalone single-channel image (`ril::Banded::bands`, not in src/), with
the binding's cast back to dynamic pixels (`cast_bands_to_pyobjects` in
`src/image.rs`). `chan` selects the channel value of each pixel. -/
def RilImage.band (img : RilImage) (chan : Dynamic → Nat) : RilImage :=
  { img with pixels := img.pixels.map (fun p => Dynamic.l (chan p)) }

/-- The binding `Image::bands` from `src/image.rs`: dispatches on
`self.mode()` (which panics on an empty image), splitting an RGB image into
3 and an RGBA image into 4 single-channel images; any other mode reports
`Error::UnexpectedFormat(self.mode(), "Rgb or Rgba")` exactly as the source
constructs it. -/
def Image.bands (img : RilImage) : Outcome (List RilImage) :=
  match Image.mode img with
  | .panicked => .panicked
  | .err e => .err e
  | .ok m =>
    if m = "RGB" then
      .ok [img.band (fun p => p.toRgbChannels.1),
           img.band (fun p => p.toRgbChannels.2.1),
           img.band (fun p => p.toRgbChannels.2.2)]
    else if m = "RGBA" then
      .ok [img.band (fun p => p.toRgbaChannels.1),
           img.band (fun p => p.toRgbaChannels.2.1),
           img.band (fun p => p.toRgbaChannels.2.2.1),
           img.band (fun p => p.toRgbaChannels.2.2.2)]
    else
      .err (Error.unexpectedFormat m "Rgb or Rgba")

/-- Modelled from the spec: `ril::Image::from_bands` for three bands (not
in src/). Spec section 4.2: reconstructs in the fixed channel order R,G,B
from single-channel images; the bands must agree in shape. Each band pixel
passes through `convert::<ril::L>` first, as in `to_inner_bands!` of
`src/image.rs`. -/
def RilImage.fromBands3 (r g b : RilImage) : Outcome RilImage :=
  if r.width = g.width ∧ g.width = b.width ∧
     r.height = g.height ∧ g.height = b.height ∧
     r.pixels.length = g.pixels.length ∧ g.pixels.length = b.pixels.length
  then
    .ok { width := r.width
          height := r.height
          pixels :=
            (r.pixels.zip (g.pixels.zip b.pixels)).map
              (fun pq => Dynamic.rgb pq.1.toL pq.2.1.toL pq.2.2.toL)
          overlay := OverlayMode.replace }
  else
    .panicked

/-- Modelled from the spec: `ril::Image::from_bands` for four bands (not in
src/), channel order R,G,B,A (spec section 4.2). -/
def RilImage.fromBands4 (r g b a : RilImage) : Outcome RilImage :=
  if r.width = g.width ∧ g.width = b.width ∧ b.width = a.width ∧
     r.height = g.height ∧ g.height = b.height ∧ b.height = a.height ∧
     r.pixels.length = g.pixels.length ∧ g.pixels.length = b.pixels.length ∧
     b.pixels.length = a.pixels.length
  then
    .ok { width := r.width
          height := r.height
          pixels :=
            (r.pixels.zip (g.pixels.zip (b.pixels.zip a.pixels))).map
              (fun pq =>
                Dynamic.rgba pq.1.toL pq.2.1.toL pq.2.2.1.toL pq.2.2.2.toL)
          overlay := OverlayMode.replace }
  else
    .panicked

/-- The `ensure_mode!` check of `src/image.rs` applied to one band: the
band's mode must be `L`, else a type error "Expected mode `L`, got mode".
The source raises a `PyTypeError`; it is folded into the unexpected-format
error shape here. -/
def Image.ensureModeL (band : RilImage) : Outcome Unit :=
  match Image.mode band with
  | .panicked => .panicked
  | .err e => .err e
  | .ok m =>
    if m = "L" then .ok () else .err (Error.unexpectedFormat "L" m)

/-- The binding `Image::from_bands` from `src/image.rs`: accepts exactly 3
or 4 band images, checks each has mode `L`, then reconstructs through the
wrapped `from_bands` and casts back to dynamic pixels. Any other arity is a
value error, represented by the format-mismatch shape the source's
`PyValueError` message carries. -/
def Image.fromBands (bands : List RilImage) : Outcome RilImage :=
  match bands with
  | [r, g, b] =>
    match Image.ensureModeL r, Image.ensureModeL g, Image.ensureModeL b with
    | .ok _, .ok _, .ok _ => RilImage.fromBands3 r g b
    | .panicked, _, _ => .panicked
    | .err e, _, _ => .err e
    | _, .panicked, _ => .panicked
    | _, .err e, _ => .err e
    | _, _, .panicked => .panicked
    | _, _, .err e => .err e
  | [r, g, b, a] =>
    match Image.ensureModeL r, Image.ensureModeL g, Image.ensureModeL b,
        Image.ensureModeL a with
    | .ok _, .ok _, .ok _, .ok _ => RilImage.fromBands4 r g b a
    | .panicked, _, _, _ => .panicked
    | .err e, _, _, _ => .err e
    | _, .panicked, _, _ => .panicked
    | _, .err e, _, _ => .err e
    | _, _, .panicked, _ => .panicked
    | _, _, .err e, _ => .err e
    | _, _, _, .panicked => .panicked
    | _, _, _, .err e => .err e
  | _ => .err (Error.unexpectedFormat "3 or 4 arguments" (toString bands.length))

/-! ## mask_alpha -/

/-- Modelled from the spec: `with_alpha` on a dynamic pixel (`ril`, not in
src/): an RGBA pixel's alpha is replaced; formats without an alpha channel
are unchanged. -/
def Dynamic.withAlpha (p : Dynamic) (alpha : Nat) : Dynamic :=
  match p with
  | .rgba r g b _ => .rgba r g b alpha
  | other => other

/-- Modelled from the spec: `ril::Image::mask_alpha` (not in src/). Spec
section 4.2 requires the mask to have identical dimensions; the wrapped
operation returns no result to the binding (the call in `src/image.rs` is
not fallible), so a dimension mismatch terminates abnormally rather than
reporting an error. Each pixel's alpha is set to the mask's luminance at
that coordinate. The mask arrives already converted through
`convert::<ril::L>`. -/
def RilImage.maskAlphaInner (img mask : RilImage) : Outcome RilImage :=
  if img.width = mask.width ∧ img.height = mask.height then
    .ok { img with
          pixels :=
            (img.pixels.zip mask.pixels).map
              (fun pq => pq.1.withAlpha pq.2.toL) }
  else
    .panicked

/-- The binding `Image::mask_alpha` from `src/image.rs`: reports
`Error::UnexpectedFormat("L", mask.mode())` when the mask is not of mode
`L` (the only check the binding performs), then calls the wrapped
`mask_alpha` with the mask converted to `L` and returns `Ok(())`. -/
def Image.maskAlpha (img mask : RilImage) : Outcome RilImage :=
  match Image.mode mask with
  | .panicked => .panicked
  | .err e => .err e
  | .ok m =>
    if m ≠ "L" then
      .err (Error.unexpectedFormat "L" m)
    else
      img.maskAlphaInner
        { mask with pixels := mask.pixels.map (fun p => Dynamic.l p.toL) }

/-! ## Sequence and frames -/

/-- `Frame` from `src/sequence.rs`: an image plus delay (milliseconds) and
disposal metadata, wrapping `ril::Frame`. -/
structure Frame where
  image : RilImage
  delay : Nat
  disposal : DisposalMethod
  deriving DecidableEq, Repr

/-- `Frame::set_delay` from `src/sequence.rs`: a setter on the frame value
alone — its receiver is the frame, so no sequence state appears in its
type. -/
def Frame.setDelay (f : Frame) (delay : Nat) : Frame :=
  { f with delay := delay }

/-- `Frame::set_disposal` from `src/sequence.rs`. -/
def Frame.setDisposal (f : Frame) (d : DisposalMethod) : Frame :=
  { f with disposal := d }

/-- `ImageSequence` from `src/sequence.rs`: the stored frame list `inner`
plus the separate single-pass cursor `iter`, built from a clone of the
stored list at construction. -/
structure ImageSequence where
  inner : List Frame
  iter : List Frame
  deriving DecidableEq, Repr

/-- `ImageSequence::from_frames` from `src/sequence.rs`: stores the frames
and builds the cursor from `inner.clone().into_iter()` — an independent
copy of the list. -/
def ImageSequence.fromFrames (frames : List Frame) : ImageSequence :=
  { inner := frames, iter := frames }

/-- `ImageSequence::__next__` from `src/sequence.rs`: advances only the
cursor; the stored list is untouched. Returns the yielded frame (if any)
and the updated sequence state. -/
def ImageSequence.next (s : ImageSequence) : Option Frame × ImageSequence :=
  (s.iter.head?, { s with iter := s.iter.tail })

/-- `ImageSequence::__len__` from `src/sequence.rs`: the length of the
stored frame list, independent of the cursor. -/
def ImageSequence.len (s : ImageSequence) : Nat :=
  s.inner.length

/-- Draining the cursor: calling `__next__` up to `fuel` times, collecting
the yielded frames in order (how Python's `list(seq)` consumes the
iterator). -/
def ImageSequence.drain : Nat → ImageSequence → List Frame × ImageSequence
  | 0, s => ([], s)
  | fuel + 1, s =>
    match s.next with
    | (none, s1) => ([], s1)
    | (some f, s1) =>
      match ImageSequence.drain fuel s1 with
      | (fs, s2) => (f :: fs, s2)

/-- Modelled from the spec: the input the codec collaborator's `encode`
receives from `ImageSequence::encode` (`src/sequence.rs` encodes
`self.inner`); the encoded bytes are a function of the stored frames only,
so the stored frame list is the encode-relevant state. -/
def ImageSequence.encodeInput (s : ImageSequence) : List Frame :=
  s.inner

/-! ## Drawing entities -/

/-- Border position, from `src/draw.rs` (`get_border_position`). -/
inductive BorderPosition where
  | inset
  | center
  | outset
  deriving DecidableEq, Repr

/-- `Border` from `src/draw.rs`: color, thickness, position. -/
structure Border where
  color : Dynamic
  thickness : Nat
  position : BorderPosition
  deriving DecidableEq, Repr

/-- `Rectangle` from `src/draw.rs`, wrapping `ril::draw::Rectangle` with
public fields position, size, optional border, optional fill, optional
overlay. -/
structure Rectangle where
  position : Nat × Nat
  size : Nat × Nat
  border : Option Border
  fill : Option Dynamic
  overlay : Option OverlayMode
  deriving DecidableEq, Repr

/-- `Ellipse` from `src/draw.rs`, wrapping `ril::draw::Ellipse` with public
fields position (the center), radii, optional border, optional fill,
optional overlay. -/
structure Ellipse where
  position : Nat × Nat
  radii : Nat × Nat
  border : Option Border
  fill : Option Dynamic
  overlay : Option OverlayMode
  deriving DecidableEq, Repr

/-- Modelled from the spec: the standard "over" alpha composite on dynamic
pixels (spec section 3, Merge overlay); formats without alpha behave as
Replace. Integer channel arithmetic over 0..255. -/
def Dynamic.blendOver (dst src : Dynamic) : Dynamic :=
  match src, dst with
  | .rgba sr sg sb sa, .rgba dr dg db da =>
    let outA := sa + da * (255 - sa) / 255
    if outA = 0 then .rgba 0 0 0 0
    else
      .rgba ((sr * sa + dr * da * (255 - sa) / 255) / outA)
            ((sg * sa + dg * da * (255 - sa) / 255) / outA)
            ((sb * sa + db * da * (255 - sa) / 255) / outA)
            outA
  | s, _ => s

/-- Overlay application for one destination/source pixel pair (spec
section 3). -/
def OverlayMode.compose (mode : OverlayMode) (dst src : Dynamic) : Dynamic :=
  match mode with
  | .replace => src
  | .merge => Dynamic.blendOver dst src

/-- Paints `color` through `mode` onto every pixel whose coordinate
satisfies `pred`, in the row-major buffer. -/
def RilImage.paintIf (img : RilImage) (pred : Nat → Nat → Bool)
    (mode : OverlayMode) (color : Dynamic) : RilImage :=
  { img with
    pixels :=
      img.pixels.enum.map
        (fun ip =>
          if pred (ip.1 % img.width) (ip.1 / img.width) then
            mode.compose ip.2 color
          else ip.2) }

/-- Interior membership for a rectangle with corner `pos` and size `sz`. -/
def inRectRegion (pos sz : Nat × Nat) (x y : Nat) : Bool :=
  pos.1 ≤ x ∧ x < pos.1 + sz.1 ∧ pos.2 ≤ y ∧ y < pos.2 + sz.2

/-- Modelled from the spec: the border ring of a rectangle (spec section
4.3): `Inset` keeps the stroke inside the nominal bounds, `Outset` outside,
`Center` straddles symmetrically. The ring is the expanded bounds minus the
shrunken bounds. -/
def Rectangle.ringPred (r : Rectangle) (b : Border) (x y : Nat) : Bool :=
  let expand :=
    match b.position with
    | .inset => 0
    | .outset => b.thickness
    | .center => b.thickness / 2
  let shrink :=
    match b.position with
    | .inset => b.thickness
    | .outset => 0
    | .center => b.thickness - b.thickness / 2
  let outerPos := (r.position.1 - expand, r.position.2 - expand)
  let outerSz := (r.size.1 + 2 * expand, r.size.2 + 2 * expand)
  let innerPos := (r.position.1 + shrink, r.position.2 + shrink)
  let innerSz := (r.size.1 - 2 * shrink, r.size.2 - 2 * shrink)
  inRectRegion outerPos outerSz x y ∧ ¬ inRectRegion innerPos innerSz x y

/-- Modelled from the spec: `ril::draw::Rectangle::draw` (not in src/).
Spec section 9 and the binding's own documentation (`src/draw.rs`): a
rectangle whose size is unset/zero, or which has neither fill nor border,
panics at draw time — the wrapped routine asserts its preconditions rather
than reporting an error. Otherwise the fill phase paints the interior and
the border phase paints the ring on top (border over fill, spec section
4.3), through the entity's overlay mode (falling back to the image's). -/
def Rectangle.drawInner (r : Rectangle) (img : RilImage) : Outcome RilImage :=
  if r.size.1 = 0 ∨ r.size.2 = 0 then .panicked
  else if r.fill = none ∧ r.border = none then .panicked
  else
    let mode := r.overlay.getD img.overlay
    let afterFill :=
      match r.fill with
      | some c => img.paintIf (inRectRegion r.position r.size) mode c
      | none => img
    let afterBorder :=
      match r.border with
      | some b => afterFill.paintIf (r.ringPred b) mode b.color
      | none => afterFill
    .ok afterBorder

/-- Interior membership for an ellipse centered at `c` with radii `rad`:
the standard ellipse inequality over the integers. -/
def inEllipseRegion (c rad : Nat × Nat) (x y : Nat) : Bool :=
  let dx : Int := (x : Int) - (c.1 : Int)
  let dy : Int := (y : Int) - (c.2 : Int)
  let rx : Int := (rad.1 : Int)
  let ry : Int := (rad.2 : Int)
  dx * dx * ry * ry + dy * dy * rx * rx ≤ rx * rx * ry * ry

/-- Modelled from the spec: the border ring of an ellipse (spec section
4.3), as the expanded-radii interior minus the shrunken-radii interior. -/
def Ellipse.ringPred (e : Ellipse) (b : Border) (x y : Nat) : Bool :=
  let expand :=
    match b.position with
    | .inset => 0
    | .outset => b.thickness
    | .center => b.thickness / 2
  let shrink :=
    match b.position with
    | .inset => b.thickness
    | .outset => 0
    | .center => b.thickness - b.thickness / 2
  inEllipseRegion e.position (e.radii.1 + expand, e.radii.2 + expand) x y ∧
    ¬ inEllipseRegion e.position (e.radii.1 - shrink, e.radii.2 - shrink) x y

/-- Modelled from the spec: `ril::draw::Ellipse::draw` (not in src/). Spec
section 9 and the binding's own documentation (`src/draw.rs`): a size
(radii) must be set and one of fill/border present, else the wrapped
routine panics at draw time. The rasterized interior is modelled by the
ellipse inequality (the spec's midpoint algorithm generalized to
independent radii). -/
def Ellipse.drawInner (e : Ellipse) (img : RilImage) : Outcome RilImage :=
  if e.radii.1 = 0 ∨ e.radii.2 = 0 then .panicked
  else if e.fill = none ∧ e.border = none then .panicked
  else
    let mode := e.overlay.getD img.overlay
    let afterFill :=
      match e.fill with
      | some c => img.paintIf (inEllipseRegion e.position e.radii) mode c
      | none => img
    let afterBorder :=
      match e.border with
      | some b => afterFill.paintIf (e.ringPred b) mode b.color
      | none => afterFill
    .ok afterBorder

/-- Wrap style, from `src/types.rs` (`WrapStyle`). -/
inductive WrapStyle where
  | noWrap
  | word
  | character
  deriving DecidableEq, Repr

/-- Modelled from the spec: the external font collaborator (spec section
6), reduced to the data the core consumes: the preferred rasterization
size and per-glyph advance/line metrics feeding `measure`. -/
structure Font where
  optimalSize : Nat
  advancePerUnit : Nat
  lineHeight : Nat
  deriving DecidableEq, Repr

/-- Modelled from the spec: `measure(font, text, size)` of the font
collaborator (spec section 6): glyph extents as a deterministic pure
function of the font's metrics, the text, and the requested size. -/
def Font.measure (f : Font) (text : String) (size : Nat) : Nat × Nat :=
  (text.length * f.advancePerUnit * size, f.lineHeight * size)

/-- `TextSegment` from `src/text.rs`: font, text, fill, position, size,
overlay, optional width, wrap. Size is embedded as a natural pixel count
(the `f32` size participates in no claim's arithmetic). -/
structure TextSegment where
  font : Font
  text : String
  fill : Dynamic
  position : Nat × Nat
  size : Nat
  overlay : OverlayMode
  width : Option Nat
  wrap : WrapStyle
  deriving DecidableEq, Repr

/-- Modelled from the spec: `TextSegment` rasterization (spec section 4.3,
`ril`, not in src/): paints the fill over the measured extent of the text
at the segment's position through the segment's overlay mode (glyph
coverage abstracted to full coverage). -/
def TextSegment.drawInner (t : TextSegment) (img : RilImage) :
    Outcome RilImage :=
  let ext := t.font.measure t.text t.size
  .ok (img.paintIf (inRectRegion t.position ext) t.overlay t.fill)

/-- The closed union of draw entities the binding's `FromPyObject`
extraction tries in order (`impl_draw_entities!` in `src/draw.rs`):
Rectangle, Ellipse, TextSegment. -/
inductive DrawEntity where
  | rectangle (r : Rectangle)
  | ellipse (e : Ellipse)
  | textSegment (t : TextSegment)
  deriving DecidableEq, Repr

/-- The binding `Image::draw` from `src/image.rs`: dispatches to the
entity's wrapped rasterization routine. Its Rust signature returns unit —
there is no error channel, so the only failure mode is the wrapped
routine's panic. -/
def Image.draw (img : RilImage) (entity : DrawEntity) : Outcome RilImage :=
  match entity with
  | .rectangle r => r.drawInner img
  | .ellipse e => e.drawInner img
  | .textSegment t => t.drawInner img

/-! ## Text layout -/

/-- Horizontal anchor, from `src/types.rs`. -/
inductive HorizontalAnchor where
  | left
  | center
  | right
  deriving DecidableEq, Repr

/-- Vertical anchor, from `src/types.rs`. -/
inductive VerticalAnchor where
  | top
  | center
  | bottom
  deriving DecidableEq, Repr

/-- Modelled from the spec: the interior layout state guarded by the lock
(`OwnedTextLayout` of the repository's `workaround` module, whose source is
not under src/). Spec section 3: ordered segments, position, optional
width, wrap, and the two anchors. -/
structure TextLayoutState where
  segments : List TextSegment
  position : Nat × Nat
  width : Option Nat
  wrap : WrapStyle
  xAnchor : HorizontalAnchor
  yAnchor : VerticalAnchor
  deriving DecidableEq, Repr

/-- Modelled from the spec: a fresh layout (`RilTextLayout::new` as invoked
by the binding's constructor in `src/text.rs`) before any configuration. -/
def TextLayoutState.empty : TextLayoutState :=
  { segments := []
    position := (0, 0)
    width := none
    wrap := WrapStyle.word
    xAnchor := HorizontalAnchor.left
    yAnchor := VerticalAnchor.top }

/-- Modelled from the spec: the accumulated union of every segment's
measured extent (spec section 4.4), before the anchor shift. Result is
(left, top, right, bottom), seeded at the layout position. -/
def TextLayoutState.rawBox (s : TextLayoutState) : Nat × Nat × Nat × Nat :=
  s.segments.foldl
    (fun acc seg =>
      let ext := seg.font.measure seg.text seg.size
      (min acc.1 seg.position.1,
       min acc.2.1 seg.position.2,
       max acc.2.2.1 (seg.position.1 + ext.1),
       max acc.2.2.2 (seg.position.2 + ext.2)))
    (s.position.1, s.position.2, s.position.1, s.position.2)

/-- Modelled from the spec: `bounding_box` of the wrapped layout (spec
section 4.4): the union of extents shifted by the anchors — center/right
(resp. center/bottom) subtract half/full extent. A pure derivation from the
layout state, recomputed on each read; nothing is cached. Truncated `Nat`
subtraction stands in for the `u32` arithmetic. -/
def TextLayoutState.boundingBox (s : TextLayoutState) :
    Nat × Nat × Nat × Nat :=
  let box := s.rawBox
  let w := box.2.2.1 - box.1
  let h := box.2.2.2 - box.2.1
  let dx :=
    match s.xAnchor with
    | .left => 0
    | .center => w / 2
    | .right => w
  let dy :=
    match s.yAnchor with
    | .top => 0
    | .center => h / 2
    | .bottom => h
  (box.1 - dx, box.2.1 - dy, box.2.2.1 - dx, box.2.2.2 - dy)

/-- Modelled from the spec: `dimensions` derived from `bounding_box` (spec
section 4.4). -/
def TextLayoutState.dims (s : TextLayoutState) : Nat × Nat :=
  let box := s.boundingBox
  (box.2.2.1 - box.1, box.2.2.2 - box.2.1)

/-- The shared, lock-protected layout handle of `src/text.rs`
(`Arc<RwLock<OwnedTextLayout>>`): the guarded state plus the lock's poison
flag. A prior abnormal termination while the write lock was held leaves the
flag set, and it never clears. -/
structure TextLayout where
  poisoned : Bool
  state : TextLayoutState
  deriving DecidableEq, Repr

/-- Acquiring the read lock, as every metric getter in `src/text.rs` does
via `self.inner.read()?`: a poisoned lock yields `Err(PoisonError)`, which
`src/error.rs` converts to the dedicated `Error::PoisionError`. -/
def TextLayout.readLock (l : TextLayout) : Except Error TextLayoutState :=
  if l.poisoned then .error Error.poisionError else .ok l.state

/-- Acquiring the write lock (`self.inner.write()?` in `src/text.rs`) and
applying a mutation; a poisoned lock yields the dedicated error instead. -/
def TextLayout.writeWith (l : TextLayout)
    (f : TextLayoutState → TextLayoutState) : Except Error TextLayout :=
  if l.poisoned then .error Error.poisionError
  else .ok { l with state := f l.state }

/-- `TextLayout::bounding_box` from `src/text.rs`: read lock, then the
wrapped pure derivation. The receiver is shared (`&self`), so the layout
state cannot change across the call. -/
def TextLayout.boundingBox (l : TextLayout) :
    Except Error (Nat × Nat × Nat × Nat) :=
  (l.readLock).map TextLayoutState.boundingBox

/-- `TextLayout::dimensions` from `src/text.rs`. -/
def TextLayout.dimensions (l : TextLayout) : Except Error (Nat × Nat) :=
  (l.readLock).map TextLayoutState.dims

/-- `TextLayout::width` from `src/text.rs` (the metric getter). -/
def TextLayout.widthMetric (l : TextLayout) : Except Error Nat :=
  (l.readLock).map (fun s => s.dims.1)

/-- `TextLayout::height` from `src/text.rs`. -/
def TextLayout.heightMetric (l : TextLayout) : Except Error Nat :=
  (l.readLock).map (fun s => s.dims.2)

/-- `TextLayout::centered` from `src/text.rs`: write lock, then set both
anchors to their center values — a pure setter (spec section 4.4). -/
def TextLayout.centered (l : TextLayout) : Except Error TextLayout :=
  l.writeWith (fun s =>
    { s with xAnchor := HorizontalAnchor.center,
             yAnchor := VerticalAnchor.center })

/-- `TextLayout::set_position` from `src/text.rs`. -/
def TextLayout.setPosition (l : TextLayout) (p : Nat × Nat) :
    Except Error TextLayout :=
  l.writeWith (fun s => { s with position := p })

/-- `TextLayout::set_width` from `src/text.rs`. -/
def TextLayout.setWidth (l : TextLayout) (w : Nat) :
    Except Error TextLayout :=
  l.writeWith (fun s => { s with width := some w })

/-- `TextLayout::set_wrap` from `src/text.rs`. -/
def TextLayout.setWrap (l : TextLayout) (w : WrapStyle) :
    Except Error TextLayout :=
  l.writeWith (fun s => { s with wrap := w })

/-- `TextLayout::set_horizontal_anchor` from `src/text.rs`. -/
def TextLayout.setHorizontalAnchor (l : TextLayout) (a : HorizontalAnchor) :
    Except Error TextLayout :=
  l.writeWith (fun s => { s with xAnchor := a })

/-- `TextLayout::set_vertical_anchor` from `src/text.rs`. -/
def TextLayout.setVerticalAnchor (l : TextLayout) (a : VerticalAnchor) :
    Except Error TextLayout :=
  l.writeWith (fun s => { s with yAnchor := a })

/-- `TextLayout::push_segment` from `src/text.rs`: write lock, then append;
the segment's own wrap is superseded by the layout's (spec section 4.4). -/
def TextLayout.pushSegment (l : TextLayout) (seg : TextSegment) :
    Except Error TextLayout :=
  l.writeWith (fun s =>
    { s with segments := s.segments ++ [{ seg with wrap := s.wrap }] })

/-- `TextLayout::push_basic_text` from `src/text.rs`: write lock, then
append a segment built from the font's optimal size and the layout's
current position and defaults (spec section 4.4). -/
def TextLayout.pushBasicText (l : TextLayout) (font : Font) (text : String)
    (fill : Dynamic) : Except Error TextLayout :=
  l.writeWith (fun s =>
    { s with
      segments := s.segments ++
        [{ font := font
           text := text
           fill := fill
           position := s.position
           size := font.optimalSize
           overlay := OverlayMode.merge
           width := s.width
           wrap := s.wrap }] })

/-! ## Helper lemmas -/

theorem drain_eq_iter (fuel : Nat) :
    ∀ s : ImageSequence, s.iter.length ≤ fuel →
      ImageSequence.drain fuel s = (s.iter, { inner := s.inner, iter := [] }) := by
  induction fuel with
  | zero =>
    intro s h
    obtain ⟨inner, iter⟩ := s
    have hiter : iter = [] := List.length_eq_zero.mp (Nat.le_zero.mp h)
    simp [ImageSequence.drain, hiter]
  | succ n ih =>
    intro s h
    match hs : s.iter with
    | [] =>
      simp [ImageSequence.drain, ImageSequence.next, hs]
    | f :: rest =>
      have hlen : rest.length ≤ n := by
        have := h
        rw [hs] at this
        simpa using Nat.le_of_succ_le_succ this
      have := ih { s with iter := rest } (by simpa using hlen)
      simp [ImageSequence.drain, ImageSequence.next, hs, this]

/-! ## Claim theorems -/

/-- C2: an `ImageSequence` built from a list of N frames yields exactly
those N frames in order when its cursor is drained; a second drain yields
no frames, a further `__next__` yields nothing and does not restart the
cursor, and `__len__` still reports N. -/
theorem C2_sequence_single_pass (frames : List Frame) (fuel1 fuel2 : Nat)
    (h1 : frames.length ≤ fuel1) :
    (ImageSequence.drain fuel1 (ImageSequence.fromFrames frames)).1 =
      frames ∧
    (ImageSequence.drain fuel2
      (ImageSequence.drain fuel1 (ImageSequence.fromFrames frames)).2).1 =
      [] ∧
    ImageSequence.next
      (ImageSequence.drain fuel1 (ImageSequence.fromFrames frames)).2 =
      (none,
        (ImageSequence.drain fuel1 (ImageSequence.fromFrames frames)).2) ∧
    ((ImageSequence.drain fuel1 (ImageSequence.fromFrames frames)).2).len =
      frames.length := by
  have hd : ImageSequence.drain fuel1 (ImageSequence.fromFrames frames) =
      (frames, ⟨frames, []⟩) := by
    simpa [ImageSequence.fromFrames] using
      drain_eq_iter fuel1 (ImageSequence.fromFrames frames)
        (by simpa [ImageSequence.fromFrames] using h1)
  have hd2 : ImageSequence.drain fuel2 (⟨frames, []⟩ : ImageSequence) =
      ([], ⟨frames, []⟩) := by
    simpa using drain_eq_iter fuel2 (⟨frames, []⟩ : ImageSequence) (by simp)
  refine ⟨?_, ?_, ?_, ?_⟩
  · rw [hd]
  · rw [hd, hd2]
  · rw [hd]
    simp [ImageSequence.next]
  · rw [hd]
    simp [ImageSequence.len]

/-- Witness for C2 at a concrete two-frame sequence. -/
theorem C2_sequence_single_pass_witness :
    (ImageSequence.drain 3 (ImageSequence.fromFrames
      [⟨RilImage.new 1 1 (Dynamic.l 0), 10, DisposalMethod.keep⟩,
       ⟨RilImage.new 1 1 (Dynamic.l 1), 20, DisposalMethod.background⟩])).1 =
      [⟨RilImage.new 1 1 (Dynamic.l 0), 10, DisposalMethod.keep⟩,
       ⟨RilImage.new 1 1 (Dynamic.l 1), 20, DisposalMethod.background⟩] :=
  (C2_sequence_single_pass
    [⟨RilImage.new 1 1 (Dynamic.l 0), 10, DisposalMethod.keep⟩,
     ⟨RilImage.new 1 1 (Dynamic.l 1), 20, DisposalMethod.background⟩]
    3 3 (by decide)).1

/-- C10: a frame yielded by `__next__` comes from the clone of the frame
list made at construction; the sequence state after the yield keeps the
stored frames, the reported length, and the encode-relevant state
unchanged, and `set_delay`/`set_disposal` act on the yielded frame value
alone. -/
theorem C10_yielded_frame_independent (frames : List Frame) (f : Frame)
    (s1 : ImageSequence) (d : Nat) (dm : DisposalMethod)
    (h : (ImageSequence.fromFrames frames).next = (some f, s1)) :
    frames.head? = some f ∧
    s1.inner = frames ∧
    s1.len = frames.length ∧
    s1.encodeInput = (ImageSequence.fromFrames frames).encodeInput ∧
    (f.setDelay d).delay = d ∧
    (f.setDelay d).image = f.image ∧
    (f.setDisposal dm).disposal = dm ∧
    ((f.setDelay d).setDisposal dm) =
      { f with delay := d, disposal := dm } ∧
    s1.encodeInput = frames := by
  have hf : frames.head? = some f := by
    have := congrArg Prod.fst h
    simpa [ImageSequence.next, ImageSequence.fromFrames] using this
  have hs : s1 = { inner := frames, iter := frames.tail } := by
    have := congrArg Prod.snd h
    simpa [ImageSequence.next, ImageSequence.fromFrames] using this.symm
  subst hs
  refine ⟨hf, rfl, rfl, rfl, rfl, rfl, rfl, rfl, rfl⟩

/-- Witness for C10 at a concrete one-frame sequence. -/
theorem C10_yielded_frame_independent_witness :
    (ImageSequence.fromFrames
      [⟨RilImage.new 1 1 (Dynamic.l 0), 10, DisposalMethod.keep⟩]).next =
      (some ⟨RilImage.new 1 1 (Dynamic.l 0), 10, DisposalMethod.keep⟩,
        ⟨[⟨RilImage.new 1 1 (Dynamic.l 0), 10, DisposalMethod.keep⟩], []⟩) ∧
    ((⟨RilImage.new 1 1 (Dynamic.l 0), 10,
        DisposalMethod.keep⟩ : Frame).setDelay 99).delay = 99 :=
  ⟨rfl,
    (C10_yielded_frame_independent
      [⟨RilImage.new 1 1 (Dynamic.l 0), 10, DisposalMethod.keep⟩]
      ⟨RilImage.new 1 1 (Dynamic.l 0), 10, DisposalMethod.keep⟩
      ⟨[⟨RilImage.new 1 1 (Dynamic.l 0), 10, DisposalMethod.keep⟩], []⟩
      99 DisposalMethod.previous rfl).2.2.2.2.1⟩

/-- C9: the reported mode is a function of the pixel at flat index 0 alone
(the source matches on `pixel(0, 0)`), so two images agreeing there agree
on mode; on an empty image the access panics — there is no reported-error
branch for the mode of an empty image. -/
theorem C9_mode_from_first_pixel_only :
    (∀ a b : RilImage, a.pixels.head? = b.pixels.head? →
      Image.mode a = Image.mode b) ∧
    (∀ img : RilImage, img.pixels = [] →
      Image.mode img = Outcome.panicked) ∧
    (∀ img : RilImage, (Image.mode img).isError = false) := by
  refine ⟨?_, ?_, ?_⟩
  · intro a b h
    simp [Image.mode, h]
  · intro img h
    simp [Image.mode, h]
  · intro img
    simp only [Image.mode]
    match img.pixels.head? with
    | some p => rfl
    | none => rfl

/-- Witness for C9: two images with different sizes and trailing pixels but
the same first pixel report the same mode; the empty image panics. -/
theorem C9_mode_from_first_pixel_only_witness :
    Image.mode ⟨2, 1, [Dynamic.rgb 1 2 3, Dynamic.l 7], .replace⟩ =
      Image.mode ⟨1, 1, [Dynamic.rgb 1 2 3], .merge⟩ ∧
    Image.mode ⟨0, 0, [], .replace⟩ = Outcome.panicked :=
  ⟨C9_mode_from_first_pixel_only.1
      ⟨2, 1, [Dynamic.rgb 1 2 3, Dynamic.l 7], .replace⟩
      ⟨1, 1, [Dynamic.rgb 1 2 3], .merge⟩ rfl,
    C9_mode_from_first_pixel_only.2.1 ⟨0, 0, [], .replace⟩ rfl⟩

/-- The constructor the spec's words describe for `new` (spec section 4.2:
"width,height must be > 0 (else reported error)"), stated for refinement
comparison with the binding's actual infallible constructor. -/
def Image.newPerSpec (width height : Nat) (fill : Dynamic) :
    Option RilImage :=
  if width = 0 ∨ height = 0 then none
  else some (RilImage.new width height fill)

/-- C6 counterexample: at width 0, height 5 the spec-described constructor
reports an error, but the binding's `Image::new` — whose Rust signature
returns `Self` with no error channel — constructs the empty-image sentinel
and reports nothing. -/
theorem C6_counterexample :
    Image.newPerSpec 0 5 (Dynamic.l 7) = none ∧
    Image.new 0 5 (Dynamic.l 7) =
      { width := 0, height := 5, pixels := [],
        overlay := OverlayMode.replace } ∧
    (Image.new 0 5 (Dynamic.l 7)).isEmpty = true := by
  decide

/-- C6 amended: `Image.new(width, height, fill)` produces a buffer of
`width * height` pixels, every one equal to `fill`; a zero dimension is not
reported as an error — the constructor is infallible and yields the
empty-image sentinel. -/
theorem C6_new_fills_or_empty (width height : Nat) (fill p : Dynamic)
    (hp : p ∈ (Image.new width height fill).pixels) :
    p = fill ∧
    (Image.new width height fill).pixels.length = width * height ∧
    (Image.new 0 height fill).isEmpty = true ∧
    (Image.new width 0 fill).isEmpty = true := by
  refine ⟨?_, ?_, ?_, ?_⟩
  · exact List.eq_of_mem_replicate hp
  · simp [Image.new, RilImage.new]
  · simp [Image.new, RilImage.new, RilImage.isEmpty]
  · simp [Image.new, RilImage.new, RilImage.isEmpty]

/-- Witness for C6 amended at a concrete 2 by 3 image. -/
theorem C6_new_fills_or_empty_witness :
    Dynamic.rgb 1 2 3 = Dynamic.rgb 1 2 3 ∧
    (Image.new 2 3 (Dynamic.rgb 1 2 3)).pixels.length = 2 * 3 ∧
    (Image.new 0 3 (Dynamic.rgb 1 2 3)).isEmpty = true ∧
    (Image.new 2 0 (Dynamic.rgb 1 2 3)).isEmpty = true :=
  C6_new_fills_or_empty 2 3 (Dynamic.rgb 1 2 3) (Dynamic.rgb 1 2 3)
    (by decide)

/-- C7 counterexample: on a 2 by 2 image, `get_pixel(5, 5)` and
`set_pixel(5, 5, _)` panic in the wrapped checked access — they do not
report a typed error (the binding methods have no error channel). -/
theorem C7_counterexample :
    Image.getPixel (Image.new 2 2 (Dynamic.l 9)) 5 5 = Outcome.panicked ∧
    (Image.getPixel (Image.new 2 2 (Dynamic.l 9)) 5 5).isError = false ∧
    Image.setPixel (Image.new 2 2 (Dynamic.l 9)) 5 5 (Dynamic.l 0) =
      Outcome.panicked ∧
    (Image.setPixel (Image.new 2 2 (Dynamic.l 9)) 5 5
      (Dynamic.l 0)).isError = false := by
  decide

/-- C7 amended: out-of-bounds pixel access is memory-safe but unreported —
`get_pixel`/`set_pixel` never produce a typed error; the checked row-major
access panics exactly when the flat index `y * width + x` leaves the
buffer, and a successful read returns precisely the buffer's pixel at that
flat index (so an `x ≥ width` whose flat index stays in range silently
addresses a later row). -/
theorem C7_pixel_access_checked (img : RilImage) (x y : Nat) (p : Dynamic) :
    (Image.getPixel img x y).isError = false ∧
    (Image.setPixel img x y p).isError = false ∧
    (Image.getPixel img x y = Outcome.panicked ↔
      img.pixels.length ≤ img.index x y) ∧
    (Image.setPixel img x y p = Outcome.panicked ↔
      img.pixels.length ≤ img.index x y) ∧
    (∀ q, Image.getPixel img x y = Outcome.ok q →
      img.pixels.get? (img.index x y) = some q) := by
  refine ⟨?_, ?_, ?_, ?_, ?_⟩
  · simp only [Image.getPixel, RilImage.pixel]
    match img.pixels.get? (img.index x y) with
    | some _ => rfl
    | none => rfl
  · simp only [Image.setPixel, RilImage.setPixelInner]
    split <;> rfl
  · simp only [Image.getPixel, RilImage.pixel]
    match hq : img.pixels.get? (img.index x y) with
    | some _ =>
      simp only [reduceCtorEq, false_iff]
      intro hle
      rw [List.get?_eq_none.mpr hle] at hq
      exact absurd hq (by simp)
    | none =>
      simp only [true_iff]
      exact List.get?_eq_none.mp hq
  · simp only [Image.setPixel, RilImage.setPixelInner]
    split
    · next hlt => simp [Nat.not_le.mpr hlt]
    · next hge => simp [Nat.le_of_not_lt (by exact fun hlt => hge hlt)]
  · intro q hq
    simp only [Image.getPixel, RilImage.pixel] at hq
    match hg : img.pixels.get? (img.index x y) with
    | some r =>
      rw [hg] at hq
      cases hq
      rfl
    | none =>
      rw [hg] at hq
      cases hq

/-- Witness for C7 amended at a concrete in-bounds read. -/
theorem C7_pixel_access_checked_witness :
    (Image.new 2 2 (Dynamic.l 9)).pixels.get?
      ((Image.new 2 2 (Dynamic.l 9)).index 1 1) = some (Dynamic.l 9) :=
  (C7_pixel_access_checked (Image.new 2 2 (Dynamic.l 9)) 1 1
    (Dynamic.l 0)).2.2.2.2 (Dynamic.l 9) (by decide)

/-- C4: on a layout whose lock was poisoned by an earlier abnormal
termination while the write lock was held, every operation — the metric
reads, both push operations, every setter, and `centered` — fails with the
dedicated lock-poisoned error (`Error::PoisionError` of `src/error.rs`)
instead of proceeding. -/
theorem C4_poisoned_layout_rejects_all (l : TextLayout) (seg : TextSegment)
    (font : Font) (text : String) (fill : Dynamic) (pos : Nat × Nat)
    (w : Nat) (ws : WrapStyle) (ha : HorizontalAnchor) (va : VerticalAnchor)
    (hp : l.poisoned = true) :
    l.boundingBox = Except.error Error.poisionError ∧
    l.dimensions = Except.error Error.poisionError ∧
    l.widthMetric = Except.error Error.poisionError ∧
    l.heightMetric = Except.error Error.poisionError ∧
    l.centered = Except.error Error.poisionError ∧
    l.setPosition pos = Except.error Error.poisionError ∧
    l.setWidth w = Except.error Error.poisionError ∧
    l.setWrap ws = Except.error Error.poisionError ∧
    l.setHorizontalAnchor ha = Except.error Error.poisionError ∧
    l.setVerticalAnchor va = Except.error Error.poisionError ∧
    l.pushSegment seg = Except.error Error.poisionError ∧
    l.pushBasicText font text fill = Except.error Error.poisionError := by
  refine ⟨?_, ?_, ?_, ?_, ?_, ?_, ?_, ?_, ?_, ?_, ?_, ?_⟩ <;>
    simp [TextLayout.boundingBox, TextLayout.dimensions,
      TextLayout.widthMetric, TextLayout.heightMetric, TextLayout.centered,
      TextLayout.setPosition, TextLayout.setWidth, TextLayout.setWrap,
      TextLayout.setHorizontalAnchor, TextLayout.setVerticalAnchor,
      TextLayout.pushSegment, TextLayout.pushBasicText,
      TextLayout.readLock, TextLayout.writeWith, hp, Except.map]

/-- Witness for C4 at a concrete poisoned layout. -/
theorem C4_poisoned_layout_rejects_all_witness :
    TextLayout.boundingBox ⟨true, TextLayoutState.empty⟩ =
      Except.error Error.poisionError :=
  (C4_poisoned_layout_rejects_all ⟨true, TextLayoutState.empty⟩
    ⟨⟨12, 1, 2⟩, "a", Dynamic.l 0, (0, 0), 12, OverlayMode.merge, none,
      WrapStyle.word⟩
    ⟨12, 1, 2⟩ "b" (Dynamic.l 0) (0, 0) 3 WrapStyle.word
    HorizontalAnchor.left VerticalAnchor.top rfl).1

/-- C8: `bounding_box` takes the read lock on a shared receiver and
recomputes a pure derivation of the guarded state, so two calls with no
mutation between them return identical values. -/
theorem C8_bounding_box_deterministic (l : TextLayout)
    (v1 v2 : Nat × Nat × Nat × Nat)
    (h1 : l.boundingBox = Except.ok v1)
    (h2 : l.boundingBox = Except.ok v2) : v1 = v2 := by
  rw [h1] at h2
  exact (Except.ok.injEq _ _).mp h2

/-- Witness for C8 at a concrete unpoisoned layout with one segment. -/
theorem C8_bounding_box_deterministic_witness :
    ((10, 20, 22, 28) : Nat × Nat × Nat × Nat) = (10, 20, 22, 28) :=
  C8_bounding_box_deterministic
    ⟨false,
      { segments :=
          [⟨⟨2, 3, 4⟩, "ab", Dynamic.l 5, (10, 20), 2, OverlayMode.merge,
            none, WrapStyle.word⟩]
        position := (10, 20)
        width := none
        wrap := WrapStyle.word
        xAnchor := HorizontalAnchor.left
        yAnchor := VerticalAnchor.top }⟩
    (10, 20, 22, 28) (10, 20, 22, 28) rfl rfl

/-- C1 counterexample: drawing a rectangle with neither fill nor border set
(the concrete shape `position (1,1), size (2,2)` with no style) onto a
4 by 4 image panics in the wrapped rasterizer — the outcome is not a
reported error of any kind, and the binding's error type has no
`ConfigurationError` at all (`src/error.rs` defines only `Ril`,
`UnexpectedFormat` and `PoisionError`). -/
theorem C1_counterexample :
    Image.draw (Image.new 4 4 (Dynamic.rgba 0 0 0 0))
      (DrawEntity.rectangle
        { position := (1, 1), size := (2, 2), border := none, fill := none,
          overlay := none }) = Outcome.panicked ∧
    (Image.draw (Image.new 4 4 (Dynamic.rgba 0 0 0 0))
      (DrawEntity.rectangle
        { position := (1, 1), size := (2, 2), border := none, fill := none,
          overlay := none })).isError = false := by
  decide

/-- C1 amended: a Rectangle or Ellipse with neither fill nor border set, or
with a zero size (radii) component, panics at draw time — `Image::draw`
returns unit in the source, so no entity draw ever produces a reported
error, let alone a `ConfigurationError` (which the binding's error type
does not define). -/
theorem C1_invalid_shape_draw_panics :
    (∀ (img : RilImage) (r : Rectangle),
      (r.fill = none ∧ r.border = none) ∨ r.size.1 = 0 ∨ r.size.2 = 0 →
      Image.draw img (DrawEntity.rectangle r) = Outcome.panicked) ∧
    (∀ (img : RilImage) (e : Ellipse),
      (e.fill = none ∧ e.border = none) ∨ e.radii.1 = 0 ∨ e.radii.2 = 0 →
      Image.draw img (DrawEntity.ellipse e) = Outcome.panicked) ∧
    (∀ (img : RilImage) (ent : DrawEntity),
      (Image.draw img ent).isError = false) := by
  refine ⟨?_, ?_, ?_⟩
  · intro img r h
    simp only [Image.draw, Rectangle.drawInner]
    rcases h with ⟨hf, hb⟩ | hz | hz
    · split
      · rfl
      · simp [hf, hb]
    · simp [hz]
    · simp [hz]
  · intro img e h
    simp only [Image.draw, Ellipse.drawInner]
    rcases h with ⟨hf, hb⟩ | hz | hz
    · split
      · rfl
      · simp [hf, hb]
    · simp [hz]
    · simp [hz]
  · intro img ent
    cases ent with
    | rectangle r =>
      simp only [Image.draw, Rectangle.drawInner]
      split
      · rfl
      · split <;> rfl
    | ellipse e =>
      simp only [Image.draw, Ellipse.drawInner]
      split
      · rfl
      · split <;> rfl
    | textSegment t => rfl

/-- Witness for C1 amended: a zero-radius ellipse with a fill still panics,
and a styled rectangle draw reports no error. -/
theorem C1_invalid_shape_draw_panics_witness :
    Image.draw (Image.new 2 2 (Dynamic.rgb 0 0 0))
      (DrawEntity.ellipse
        { position := (1, 1), radii := (0, 3), border := none,
          fill := some (Dynamic.rgb 1 1 1), overlay := none }) =
      Outcome.panicked ∧
    (Image.draw (Image.new 2 2 (Dynamic.rgb 0 0 0))
      (DrawEntity.rectangle
        { position := (0, 0), size := (1, 1), border := none,
          fill := some (Dynamic.rgb 1 1 1),
          overlay := none })).isError = false :=
  ⟨C1_invalid_shape_draw_panics.2.1 (Image.new 2 2 (Dynamic.rgb 0 0 0))
      { position := (1, 1), radii := (0, 3), border := none,
        fill := some (Dynamic.rgb 1 1 1), overlay := none }
      (Or.inr (Or.inl rfl)),
    C1_invalid_shape_draw_panics.2.2 (Image.new 2 2 (Dynamic.rgb 0 0 0))
      (DrawEntity.rectangle
        { position := (0, 0), size := (1, 1), border := none,
          fill := some (Dynamic.rgb 1 1 1), overlay := none })⟩

/-- `true` exactly on the RGB variant. -/
def Dynamic.isRgb : Dynamic → Bool
  | .rgb _ _ _ => true
  | _ => false

/-- `true` exactly on the RGBA variant. -/
def Dynamic.isRgba : Dynamic → Bool
  | .rgba _ _ _ _ => true
  | _ => false

/-- `bands()` immediately followed by `from_bands(...)` on the returned
bands, the round trip of spec section 8. -/
def Image.bandsThenRebuild (img : RilImage) : Outcome RilImage :=
  match Image.bands img with
  | .ok bs => Image.fromBands bs
  | .err e => .err e
  | .panicked => .panicked

theorem recombine_rgb (ps : List Dynamic)
    (h : ∀ p ∈ ps, p.isRgb = true) :
    ((ps.map (fun p => Dynamic.l p.toRgbChannels.1)).zip
      ((ps.map (fun p => Dynamic.l p.toRgbChannels.2.1)).zip
        (ps.map (fun p => Dynamic.l p.toRgbChannels.2.2)))).map
      (fun pq => Dynamic.rgb pq.1.toL pq.2.1.toL pq.2.2.toL) = ps := by
  induction ps with
  | nil => rfl
  | cons p ps ih =>
    have hp := h p (List.mem_cons_self p ps)
    have hrest := ih (fun q hq => h q (List.mem_cons_of_mem _ hq))
    cases p with
    | rgb r g b =>
      simp only [List.map_cons, List.zip_cons_cons]
      rw [hrest]
      rfl
    | bitPixel v => simp [Dynamic.isRgb] at hp
    | l v => simp [Dynamic.isRgb] at hp
    | rgba r g b a => simp [Dynamic.isRgb] at hp

theorem recombine_rgba (ps : List Dynamic)
    (h : ∀ p ∈ ps, p.isRgba = true) :
    ((ps.map (fun p => Dynamic.l p.toRgbaChannels.1)).zip
      ((ps.map (fun p => Dynamic.l p.toRgbaChannels.2.1)).zip
        ((ps.map (fun p => Dynamic.l p.toRgbaChannels.2.2.1)).zip
          (ps.map (fun p => Dynamic.l p.toRgbaChannels.2.2.2))))).map
      (fun pq =>
        Dynamic.rgba pq.1.toL pq.2.1.toL pq.2.2.1.toL pq.2.2.2.toL) = ps := by
  induction ps with
  | nil => rfl
  | cons p ps ih =>
    have hp := h p (List.mem_cons_self p ps)
    have hrest := ih (fun q hq => h q (List.mem_cons_of_mem _ hq))
    cases p with
    | rgba r g b a =>
      simp only [List.map_cons, List.zip_cons_cons]
      rw [hrest]
      rfl
    | bitPixel v => simp [Dynamic.isRgba] at hp
    | l v => simp [Dynamic.isRgba] at hp
    | rgb r g b => simp [Dynamic.isRgba] at hp

theorem bands_roundtrip_rgb (img : RilImage) (hne : img.pixels ≠ [])
    (hall : ∀ p ∈ img.pixels, p.isRgb = true) :
    Image.bandsThenRebuild img =
      Outcome.ok
        ⟨img.width, img.height, img.pixels, OverlayMode.replace⟩ := by
  obtain ⟨p0, rest, hcons⟩ := List.exists_cons_of_ne_nil hne
  have hp0 := hall p0 (by rw [hcons]; exact List.mem_cons_self p0 rest)
  have hmode : Image.mode img = Outcome.ok "RGB" := by
    cases p0 with
    | rgb r g b => simp [Image.mode, hcons, Dynamic.modeStr]
    | bitPixel v => simp [Dynamic.isRgb] at hp0
    | l v => simp [Dynamic.isRgb] at hp0
    | rgba r g b a => simp [Dynamic.isRgb] at hp0
  have hensure : ∀ chan : Dynamic → Nat,
      Image.ensureModeL (img.band chan) = Outcome.ok () := by
    intro chan
    simp [Image.ensureModeL, Image.mode, RilImage.band, hcons,
      Dynamic.modeStr]
  simp only [Image.bandsThenRebuild, Image.bands, hmode, if_true]
  simp only [Image.fromBands, hensure]
  simp only [RilImage.fromBands3, RilImage.band]
  rw [if_pos (by simp)]
  rw [recombine_rgb img.pixels hall]

theorem bands_roundtrip_rgba (img : RilImage) (hne : img.pixels ≠ [])
    (hall : ∀ p ∈ img.pixels, p.isRgba = true) :
    Image.bandsThenRebuild img =
      Outcome.ok
        ⟨img.width, img.height, img.pixels, OverlayMode.replace⟩ := by
  obtain ⟨p0, rest, hcons⟩ := List.exists_cons_of_ne_nil hne
  have hp0 := hall p0 (by rw [hcons]; exact List.mem_cons_self p0 rest)
  have hmode : Image.mode img = Outcome.ok "RGBA" := by
    cases p0 with
    | rgba r g b a => simp [Image.mode, hcons, Dynamic.modeStr]
    | bitPixel v => simp [Dynamic.isRgba] at hp0
    | l v => simp [Dynamic.isRgba] at hp0
    | rgb r g b => simp [Dynamic.isRgba] at hp0
  have hensure : ∀ chan : Dynamic → Nat,
      Image.ensureModeL (img.band chan) = Outcome.ok () := by
    intro chan
    simp [Image.ensureModeL, Image.mode, RilImage.band, hcons,
      Dynamic.modeStr]
  simp only [Image.bandsThenRebuild, Image.bands, hmode, if_true]
  rw [if_neg (by decide)]
  simp only [Image.fromBands, hensure]
  simp only [RilImage.fromBands4, RilImage.band]
  rw [if_pos (by simp)]
  rw [recombine_rgba img.pixels hall]

/-- C3: splitting an RGB image into its 3 bands and reconstructing with
`from_bands` reproduces the original pixel values (and dimensions) exactly;
the same round trip holds for an RGBA image with 4 bands. -/
theorem C3_bands_roundtrip (imgRgb imgRgba : RilImage)
    (h1 : imgRgb.pixels ≠ [])
    (h2 : ∀ p ∈ imgRgb.pixels, p.isRgb = true)
    (h3 : imgRgba.pixels ≠ [])
    (h4 : ∀ p ∈ imgRgba.pixels, p.isRgba = true) :
    Image.bandsThenRebuild imgRgb =
      Outcome.ok
        ⟨imgRgb.width, imgRgb.height, imgRgb.pixels,
          OverlayMode.replace⟩ ∧
    Image.bandsThenRebuild imgRgba =
      Outcome.ok
        ⟨imgRgba.width, imgRgba.height, imgRgba.pixels,
          OverlayMode.replace⟩ :=
  ⟨bands_roundtrip_rgb imgRgb h1 h2, bands_roundtrip_rgba imgRgba h3 h4⟩

/-- Witness for C3 at concrete 2 by 1 RGB and RGBA images. -/
theorem C3_bands_roundtrip_witness :
    Image.bandsThenRebuild
      ⟨2, 1, [Dynamic.rgb 1 2 3, Dynamic.rgb 4 5 6], OverlayMode.merge⟩ =
      Outcome.ok
        ⟨2, 1, [Dynamic.rgb 1 2 3, Dynamic.rgb 4 5 6],
          OverlayMode.replace⟩ ∧
    Image.bandsThenRebuild
      ⟨2, 1, [Dynamic.rgba 1 2 3 4, Dynamic.rgba 5 6 7 8],
        OverlayMode.merge⟩ =
      Outcome.ok
        ⟨2, 1, [Dynamic.rgba 1 2 3 4, Dynamic.rgba 5 6 7 8],
          OverlayMode.replace⟩ :=
  C3_bands_roundtrip
    ⟨2, 1, [Dynamic.rgb 1 2 3, Dynamic.rgb 4 5 6], OverlayMode.merge⟩
    ⟨2, 1, [Dynamic.rgba 1 2 3 4, Dynamic.rgba 5 6 7 8], OverlayMode.merge⟩
    (by decide) (by decide) (by decide) (by decide)

/-- C5 counterexample: for a 1 by 1 RGBA image and a 2 by 1 mask of mode
`L` (so the binding's only check, the mode check, passes), `mask_alpha`
panics in the wrapped dimension assertion — the dimension mismatch is not
reported as a format-mismatch (or any) error, because the binding performs
no dimension check and the inner call is infallible in its signature. -/
theorem C5_counterexample :
    Image.maskAlpha ⟨1, 1, [Dynamic.rgba 1 2 3 4], OverlayMode.replace⟩
      ⟨2, 1, [Dynamic.l 5, Dynamic.l 6], OverlayMode.replace⟩ =
      Outcome.panicked ∧
    (Image.maskAlpha ⟨1, 1, [Dynamic.rgba 1 2 3 4], OverlayMode.replace⟩
      ⟨2, 1, [Dynamic.l 5, Dynamic.l 6],
        OverlayMode.replace⟩).isError = false := by
  decide

/-- C5 amended: `mask_alpha` reports the format-mismatch error
`UnexpectedFormat("L", mode)` exactly when the mask's reported mode is not
`L`; with an `L`-mode mask of different dimensions it panics (the binding
checks only the mode, so the mismatch is not a reported error); with an
`L`-mode mask of identical dimensions it succeeds and each RGBA pixel's
alpha becomes the mask's luminance at that coordinate. -/
theorem C5_mask_alpha_checks (img mask : RilImage) (m : String) :
    (Image.mode mask = Outcome.ok m → m ≠ "L" →
      Image.maskAlpha img mask =
        Outcome.err (Error.unexpectedFormat "L" m)) ∧
    (Image.mode mask = Outcome.ok "L" →
      ¬ (img.width = mask.width ∧ img.height = mask.height) →
      Image.maskAlpha img mask = Outcome.panicked) ∧
    (Image.mode mask = Outcome.ok "L" → img.width = mask.width →
      img.height = mask.height →
      ∃ out, Image.maskAlpha img mask = Outcome.ok out ∧
        out.width = img.width ∧ out.height = img.height ∧
        ∀ i r g b a mp, img.pixels.get? i = some (Dynamic.rgba r g b a) →
          mask.pixels.get? i = some mp →
          out.pixels.get? i = some (Dynamic.rgba r g b mp.toL)) := by
  refine ⟨?_, ?_, ?_⟩
  · intro hm hne
    simp [Image.maskAlpha, hm, hne]
  · intro hm hdim
    simp only [Image.maskAlpha, hm]
    rw [if_neg (by simp)]
    simp only [RilImage.maskAlphaInner]
    rw [if_neg (by simpa using hdim)]
  · intro hm hw hh
    refine ⟨{ img with
        pixels :=
          (img.pixels.zip (mask.pixels.map (fun p => Dynamic.l p.toL))).map
            (fun pq => pq.1.withAlpha pq.2.toL) }, ?_, rfl, rfl, ?_⟩
    · simp only [Image.maskAlpha, hm]
      rw [if_neg (by simp)]
      simp only [RilImage.maskAlphaInner]
      rw [if_pos (by exact ⟨hw, hh⟩)]
    · intro i r g b a mp hi hmp
      have hz : (img.pixels.zip
          (mask.pixels.map (fun p => Dynamic.l p.toL))).get? i =
          some (Dynamic.rgba r g b a, Dynamic.l mp.toL) :=
        (List.get?_zip_eq_some _ _ _ _).mpr
          ⟨hi, by rw [List.get?_map, hmp]; rfl⟩
      rw [List.get?_map, hz]
      rfl

/-- Witness for C5 amended at a concrete pair: a same-size `L` mask sets
the RGBA pixel's alpha, and an RGB mask is rejected with the
format-mismatch error. -/
theorem C5_mask_alpha_checks_witness :
    Image.maskAlpha ⟨1, 1, [Dynamic.rgba 1 2 3 4], OverlayMode.replace⟩
      ⟨1, 1, [Dynamic.rgb 9 9 9], OverlayMode.replace⟩ =
      Outcome.err (Error.unexpectedFormat "L" "RGB") ∧
    ∃ out,
      Image.maskAlpha ⟨1, 1, [Dynamic.rgba 1 2 3 4], OverlayMode.replace⟩
        ⟨1, 1, [Dynamic.l 77], OverlayMode.replace⟩ = Outcome.ok out ∧
      out.width = 1 ∧ out.height = 1 ∧
      ∀ i r g b a mp,
        ([Dynamic.rgba 1 2 3 4].get? i = some (Dynamic.rgba r g b a)) →
        ([Dynamic.l 77].get? i = some mp) →
        out.pixels.get? i = some (Dynamic.rgba r g b mp.toL) :=
  ⟨(C5_mask_alpha_checks ⟨1, 1, [Dynamic.rgba 1 2 3 4], OverlayMode.replace⟩
      ⟨1, 1, [Dynamic.rgb 9 9 9], OverlayMode.replace⟩ "RGB").1 rfl
      (by decide),
    (C5_mask_alpha_checks ⟨1, 1, [Dynamic.rgba 1 2 3 4], OverlayMode.replace⟩
      ⟨1, 1, [Dynamic.l 77], OverlayMode.replace⟩ "L").2.2 rfl rfl rfl⟩

end RilPy
